import Mathlib

/-!
Verification of the RBAC permission-evaluation core of the oncall API layer
(`engine/apps/api/permissions/__init__.py`), shallowly embedded in Lean 4.

Python strings become `String`, Python lists become `List`, Python dicts
declared per handler become association lists (`List (key × value)`; a dict
read with `.get k default` is an association-list lookup with a default),
`None`-able attributes become `Option`, and a Python `assert` / raised
`AttributeError` becomes an `Except` error value.  Objects with attributes
(used only by the ownership policies) are modelled by a small "record with
named fields" datatype.
-/

namespace Oncall

/-- `ACTION_PREFIX = "grafana-oncall-app"` (permissions module, line 12). -/
def ACTION_PREFIX : String := "grafana-oncall-app"

/-- The `Resources` enum: enumerated domain areas, each carrying its string value. -/
inductive Resources where
  | ALERT_GROUPS
  | INTEGRATIONS
  | ESCALATION_CHAINS
  | SCHEDULES
  | CHATOPS
  | OUTGOING_WEBHOOKS
  | MAINTENANCE
  | API_KEYS
  | NOTIFICATION_SETTINGS
  | USER_SETTINGS
  | OTHER_SETTINGS
  | IMPOSSIBLE_TESTING
  deriving DecidableEq, Repr, Fintype

/-- `.value` of each `Resources` member. -/
def Resources.value : Resources → String
  | .ALERT_GROUPS => "alert-groups"
  | .INTEGRATIONS => "integrations"
  | .ESCALATION_CHAINS => "escalation-chains"
  | .SCHEDULES => "schedules"
  | .CHATOPS => "chatops"
  | .OUTGOING_WEBHOOKS => "outgoing-webhooks"
  | .MAINTENANCE => "maintenance"
  | .API_KEYS => "api-keys"
  | .NOTIFICATION_SETTINGS => "notification-settings"
  | .USER_SETTINGS => "user-settings"
  | .OTHER_SETTINGS => "other-settings"
  | .IMPOSSIBLE_TESTING => "impossible-testing"

/-- The `Actions` enum: enumerated capability levels. -/
inductive Actions where
  | READ
  | WRITE
  | ADMIN
  | IMPOSSIBLE_TESTING
  deriving DecidableEq, Repr, Fintype

/-- `.value` of each `Actions` member. -/
def Actions.value : Actions → String
  | .READ => "read"
  | .WRITE => "write"
  | .ADMIN => "admin"
  | .IMPOSSIBLE_TESTING => "impossible-testing"

/-- `_generate_permission_string(resource, action, ignore_prefix=False)`:
returns `f"{'' if ignore_prefix else ACTION_PREFIX + '.'}{resource.value}:{action.value}"`. -/
def _generate_permission_string (resource : Resources) (action : Actions)
    ( ignore_prefix : Bool) : String :=
  (if ignore_prefix then "" else ACTION_PREFIX ++ ".") ++ resource.value ++ ":" ++ action.value

/-- `GrafanaPermission`: a granted-permission record holding an identifier string. -/
structure GrafanaPermission where
  action : String
  deriving DecidableEq, Repr

namespace RBACPermission

/-- The `RBACPermission.Permissions` enum members (each value is produced by
`_generate_permission_string` on the declared `(resource, action)` pair). -/
inductive Permissions where
  | ALERT_GROUPS_READ
  | ALERT_GROUPS_WRITE
  | INTEGRATIONS_READ
  | INTEGRATIONS_WRITE
  | ESCALATION_CHAINS_READ
  | ESCALATION_CHAINS_WRITE
  | SCHEDULES_READ
  | SCHEDULES_WRITE
  | CHATOPS_READ
  | CHATOPS_WRITE
  | OUTGOING_WEBHOOKS_READ
  | OUTGOING_WEBHOOKS_WRITE
  | MAINTENANCE_READ
  | MAINTENANCE_WRITE
  | API_KEYS_READ
  | API_KEYS_WRITE
  | NOTIFICATION_SETTINGS_READ
  | NOTIFICATION_SETTINGS_WRITE
  | USER_SETTINGS_READ
  | USER_SETTINGS_WRITE
  | USER_SETTINGS_ADMIN
  | OTHER_SETTINGS_READ
  | OTHER_SETTINGS_WRITE
  | TESTING
  deriving DecidableEq, Repr, Fintype

/-- `.value` of each `RBACPermission.Permissions` member, exactly as declared
in the enum body (all use the default `ignore_prefix=False`). -/
def Permissions.value : Permissions → String
  | .ALERT_GROUPS_READ => _generate_permission_string .ALERT_GROUPS .READ false
  | .ALERT_GROUPS_WRITE => _generate_permission_string .ALERT_GROUPS .WRITE false
  | .INTEGRATIONS_READ => _generate_permission_string .INTEGRATIONS .READ false
  | .INTEGRATIONS_WRITE => _generate_permission_string .INTEGRATIONS .WRITE false
  | .ESCALATION_CHAINS_READ => _generate_permission_string .ESCALATION_CHAINS .READ false
  | .ESCALATION_CHAINS_WRITE => _generate_permission_string .ESCALATION_CHAINS .WRITE false
  | .SCHEDULES_READ => _generate_permission_string .SCHEDULES .READ false
  | .SCHEDULES_WRITE => _generate_permission_string .SCHEDULES .WRITE false
  | .CHATOPS_READ => _generate_permission_string .CHATOPS .READ false
  | .CHATOPS_WRITE => _generate_permission_string .CHATOPS .WRITE false
  | .OUTGOING_WEBHOOKS_READ => _generate_permission_string .OUTGOING_WEBHOOKS .READ false
  | .OUTGOING_WEBHOOKS_WRITE => _generate_permission_string .OUTGOING_WEBHOOKS .WRITE false
  | .MAINTENANCE_READ => _generate_permission_string .MAINTENANCE .READ false
  | .MAINTENANCE_WRITE => _generate_permission_string .MAINTENANCE .WRITE false
  | .API_KEYS_READ => _generate_permission_string .API_KEYS .READ false
  | .API_KEYS_WRITE => _generate_permission_string .API_KEYS .WRITE false
  | .NOTIFICATION_SETTINGS_READ => _generate_permission_string .NOTIFICATION_SETTINGS .READ false
  | .NOTIFICATION_SETTINGS_WRITE => _generate_permission_string .NOTIFICATION_SETTINGS .WRITE false
  | .USER_SETTINGS_READ => _generate_permission_string .USER_SETTINGS .READ false
  | .USER_SETTINGS_WRITE => _generate_permission_string .USER_SETTINGS .WRITE false
  | .USER_SETTINGS_ADMIN => _generate_permission_string .USER_SETTINGS .ADMIN false
  | .OTHER_SETTINGS_READ => _generate_permission_string .OTHER_SETTINGS .READ false
  | .OTHER_SETTINGS_WRITE => _generate_permission_string .OTHER_SETTINGS .WRITE false
  | .TESTING => _generate_permission_string .IMPOSSIBLE_TESTING .IMPOSSIBLE_TESTING false

end RBACPermission

/-- Inner loop of `has_permissions`: scan `user_permissions` for the first
granted permission whose `action` string equals the required identifier
(`break` on the first hit), else `None`. -/
def find_granted (user_permissions : List GrafanaPermission)
    (required_permission : RBACPermission.Permissions) : Option GrafanaPermission :=
  user_permissions.find? (fun up => up.action == required_permission.value)

/-- `has_permissions(user_permissions, required_permissions)`: for every
required permission, scan the granted list for a match by string equality of
identifiers; `break` with `False` on the first required permission that has
no match, `True` if all are matched. -/
def has_permissions (user_permissions : List GrafanaPermission)
    (required_permissions : List RBACPermission.Permissions) : Bool :=
  required_permissions.all (fun rp => (find_granted user_permissions rp).isSome)

/-- A Python object as the ownership policies see it: either an atom with an
identity (e.g. a user), or a record whose named fields are reachable by
attribute access (`rnil` ends the field chain). -/
inductive Obj where
  | base (id : Nat)
  | rnil
  | rcons (name : String) (value : Obj) (rest : Obj)
  deriving DecidableEq, Repr

/-- Python `getattr(obj, name)` on the record model: the first field with the
given name, `none` when the attribute is missing (an `AttributeError`). -/
def Obj.getattr? : Obj → String → Option Obj
  | .rcons n v r, name => if n == name then some v else Obj.getattr? r name
  | _, _ => none

/-- Split a string at every `'.'` character (`"a.b".split(".") = ["a", "b"]`),
written on the character list so that it evaluates by reduction. -/
def splitDotted : List Char → List Char → List String
  | [], acc => [String.mk acc.reverse]
  | c :: cs, acc =>
      if c = '.' then String.mk acc.reverse :: splitDotted cs []
      else splitDotted cs (c :: acc)

/-- Modelled from the spec: `getattrd` (from `common.utils`, whose source is
not part of this tree) resolves a dotted attribute path by walking nested
attribute access — e.g. `"schedule.user"` reads `object.schedule.user` — and
a missing attribute anywhere in the path fails loudly as an
attribute-resolution error naming the missing attribute, never a boolean. -/
def getattrd (obj : Obj) (path : String) : Except String Obj :=
  (splitDotted path.data []).foldlM
    (fun v n =>
      match v.getattr? n with
      | some w => Except.ok w
      | none => Except.error n)
    obj

/-- A request as this core consumes it: the HTTP method, the authenticated
principal (`request.user`) and that principal's granted permissions
(`request.user.permissions`). -/
structure Request where
  method : String
  user : Obj
  user_permissions : List GrafanaPermission

/-- `IsOwner(ownership_field=None)`: ownership policy with an optional dotted
attribute path. -/
structure IsOwner where
  ownership_field : Option String

/-- `IsOwner.has_object_permission`:
`owner = obj if self.ownership_field is None else getattrd(obj, self.ownership_field)`,
then `owner == request.user`.  The `getattrd` failure propagates. -/
def IsOwner.has_object_permission (self : IsOwner) (request : Request)
    (obj : Obj) : Except String Bool :=
  match self.ownership_field with
  | none => Except.ok (decide (obj = request.user))
  | some f => do
      let owner ← getattrd obj f
      pure (decide (owner = request.user))

/-- `HasRBACPermissions(required_permissions)`: delegated RBAC policy. -/
structure HasRBACPermissions where
  required_permissions : List RBACPermission.Permissions

/-- `HasRBACPermissions.has_object_permission`: ignores the object and
returns `has_permissions(request.user.permissions, self.required_permissions)`. -/
def HasRBACPermissions.has_object_permission (self : HasRBACPermissions)
    (request : Request) (_obj : Obj) : Bool :=
  has_permissions request.user_permissions self.required_permissions

/-- `IsOwnerOrHasRBACPermissions(required_permissions, ownership_field=None)`:
holds an `IsOwner` and a `HasRBACPermissions` built from its arguments. -/
structure IsOwnerOrHasRBACPermissions where
  required_permissions : List RBACPermission.Permissions
  ownership_field : Option String

/-- `IsOwnerOrHasRBACPermissions.has_object_permission`: Python
`self.IsOwner.has_object_permission(...) or self.HasRBACPermissions.has_object_permission(...)`
— short-circuiting `or`, so an ownership-side error propagates. -/
def IsOwnerOrHasRBACPermissions.has_object_permission
    (self : IsOwnerOrHasRBACPermissions) (request : Request)
    (obj : Obj) : Except String Bool := do
  let owner_ok ← (IsOwner.mk self.ownership_field).has_object_permission request obj
  if owner_ok then
    pure true
  else
    pure ((HasRBACPermissions.mk self.required_permissions).has_object_permission request obj)

/-- A policy instance as it appears as a key of a handler's
`rbac_object_permissions` dict. -/
inductive PolicyClass where
  | isOwner ( ownership_field : Option String)
  | hasRBAC (required_permissions : List RBACPermission.Permissions)
  | isOwnerOrHasRBAC (required_permissions : List RBACPermission.Permissions)
      ( ownership_field : Option String)
  deriving DecidableEq, Repr

/-- Dispatch `PermissionClass.has_object_permission(request, view, obj)` to the
policy the key denotes. -/
def PolicyClass.has_object_permission : PolicyClass → Request → Obj → Except String Bool
  | .isOwner f, request, obj => (IsOwner.mk f).has_object_permission request obj
  | .hasRBAC req, request, obj =>
      Except.ok ((HasRBACPermissions.mk req).has_object_permission request obj)
  | .isOwnerOrHasRBAC req f, request, obj =>
      (IsOwnerOrHasRBACPermissions.mk req f).has_object_permission request obj

/-- The two handler shapes: a `ViewSet` (an `isinstance(view, ViewSetMixin)`
handler exposing a current `action` attribute) or a plain `APIView`. -/
inductive ViewShape where
  | viewSet (action : String)
  | apiView
  deriving DecidableEq, Repr

/-- A handler: its shape plus the two optional per-handler tables
(`rbac_permissions`, keyed by action name; `rbac_object_permissions`, keyed by
policy instance).  Python dicts become association lists in declaration order;
an attribute `getattr(view, attr, None)` finds `none` when undeclared. -/
structure View where
  shape : ViewShape
  rbac_permissions : Option (List (String × List RBACPermission.Permissions))
  rbac_object_permissions : Option (List (PolicyClass × List String))

/-- Python `str.lower()`, written character-by-character so that it evaluates
by reduction (HTTP method names are ASCII). -/
def lower (s : String) : String := String.mk (s.data.map Char.toLower)

/-- `_get_view_action(request, view)`: `view.action` for a `ViewSetMixin`
handler, else `request.method.lower()`. -/
def _get_view_action (request : Request) (view : View) : String :=
  match view.shape with
  | .viewSet action => action
  | .apiView => lower request.method

namespace RBACPermission

/-- `RBACPermission.has_permission(request, view)`: resolve the action; if the
view declares no `rbac_permissions`, the `assert` fails (an `AssertionError`,
modelled as `Except.error`); otherwise evaluate
`has_permissions(request.user.permissions, rbac_permissions.get(action, []))`. -/
def has_permission (request : Request) (view : View) : Except String Bool :=
  let action := _get_view_action request view
  match view.rbac_permissions with
  | none =>
      Except.error
        "Must define a rbac_permissions dict on the ViewSet that is consuming the RBACPermission class"
  | some rbac_permissions =>
      Except.ok (has_permissions request.user_permissions
        ((rbac_permissions.lookup action).getD []))

/-- The `for PermissionClass, actions in rbac_object_permissions.items()` loop:
the first entry whose action list contains the resolved action decides;
`return False` when the loop finishes with no match. -/
def object_permission_loop (entries : List (PolicyClass × List String))
    (action : String) (request : Request) (obj : Obj) : Except String Bool :=
  match entries with
  | [] => Except.ok false
  | (PermissionClass, actions) :: rest =>
      if actions.contains action then PermissionClass.has_object_permission request obj
      else object_permission_loop rest action request obj

/-- `RBACPermission.has_object_permission(request, view, obj)`: Python tests
`if rbac_object_permissions:`, which is `False` both when the attribute is
absent (`None`) and when the declared dict is empty; in either case it
returns `True`.  Otherwise it resolves the action and runs the entry loop. -/
def has_object_permission (request : Request) (view : View) (obj : Obj) :
    Except String Bool :=
  match view.rbac_object_permissions with
  | some rbac_object_permissions =>
      if rbac_object_permissions.isEmpty then Except.ok true
      else
        object_permission_loop rbac_object_permissions (_get_view_action request view)
          request obj
  | none => Except.ok true

end RBACPermission

/-! ## Theorems -/

/-- Characterisation of the evaluator: `has_permissions G R` holds exactly when
every required identifier in `R` is string-matched by some granted permission
in `G`. -/
theorem has_permissions_iff (G : List GrafanaPermission)
    (R : List RBACPermission.Permissions) :
    has_permissions G R = true ↔ ∀ r ∈ R, ∃ g ∈ G, g.action = r.value := by
  simp [has_permissions, find_granted, List.all_eq_true, List.find?_isSome]

/-- C2: `has_permissions(G, R)` is true iff every identifier in `R`
string-equals the identifier of some granted permission in `G`; it is
vacuously true on `R = []`, and the result depends only on which elements
occur in each list (so reordering or duplicating either list cannot change
it). -/
theorem has_permissions_spec_c2 :
    (∀ (G : List GrafanaPermission) (R : List RBACPermission.Permissions),
        has_permissions G R = true ↔ ∀ r ∈ R, ∃ g ∈ G, g.action = r.value) ∧
    (∀ G, has_permissions G [] = true) ∧
    (∀ (G G' : List GrafanaPermission) (R R' : List RBACPermission.Permissions),
        (∀ g, g ∈ G ↔ g ∈ G') → (∀ r, r ∈ R ↔ r ∈ R') →
        has_permissions G R = has_permissions G' R') := by
  refine ⟨has_permissions_iff, fun G => rfl, ?_⟩
  intro G G' R R' hG hR
  rw [Bool.eq_iff_iff, has_permissions_iff, has_permissions_iff]
  constructor
  · intro h r hr
    obtain ⟨g, hg, he⟩ := h r ((hR r).mpr hr)
    exact ⟨g, (hG g).mp hg, he⟩
  · intro h r hr
    obtain ⟨g, hg, he⟩ := h r ((hR r).mp hr)
    exact ⟨g, (hG g).mpr hg, he⟩

/-- Witness for C2 at concrete inputs: a matching grant, the vacuous case,
and a duplicated granted list. -/
theorem has_permissions_spec_c2_witness :
    has_permissions [⟨"grafana-oncall-app.schedules:read"⟩]
        [RBACPermission.Permissions.SCHEDULES_READ] = true
    ∧ has_permissions [⟨"x"⟩] [] = true
    ∧ has_permissions [⟨"a"⟩, ⟨"a"⟩] [] = has_permissions [⟨"a"⟩] [] :=
  ⟨(has_permissions_spec_c2.1 _ _).mpr (by decide),
   has_permissions_spec_c2.2.1 _,
   has_permissions_spec_c2.2.2 _ _ _ _ (fun g => by simp) (fun r => Iff.rfl)⟩

/-- C10: the evaluator is monotone in the granted list — enlarging the set of
granted permissions can never turn a grant into a denial. -/
theorem has_permissions_monotone_c10 :
    ∀ (G G' : List GrafanaPermission) (R : List RBACPermission.Permissions),
      (∀ g ∈ G, g ∈ G') →
      has_permissions G R = true → has_permissions G' R = true := by
  intro G G' R hsub h
  rw [has_permissions_iff] at h ⊢
  intro r hr
  obtain ⟨g, hg, he⟩ := h r hr
  exact ⟨g, hsub g hg, he⟩

/-- Witness for C10: adding an unrelated grant preserves a positive answer. -/
theorem has_permissions_monotone_c10_witness :
    has_permissions [⟨"grafana-oncall-app.schedules:read"⟩, ⟨"extra"⟩]
      [RBACPermission.Permissions.SCHEDULES_READ] = true :=
  has_permissions_monotone_c10 [⟨"grafana-oncall-app.schedules:read"⟩] _ _
    (by decide) (by decide)

/-- C3: when a handler declares no `rbac_permissions` table, the request gate
fails with the configuration `AssertionError` — it returns neither `True` nor
`False` — whichever shape the handler has. -/
theorem has_permission_missing_table_c3 :
    ∀ (request : Request) (view : View), view.rbac_permissions = none →
      RBACPermission.has_permission request view
          = Except.error
              "Must define a rbac_permissions dict on the ViewSet that is consuming the RBACPermission class"
        ∧ ∀ b : Bool, RBACPermission.has_permission request view ≠ Except.ok b := by
  intro request view h
  simp [RBACPermission.has_permission, h]

/-- Witness for C3: a `ViewSet` and an `APIView`, each without a table. -/
theorem has_permission_missing_table_c3_witness :
    RBACPermission.has_permission ⟨"GET", .base 0, []⟩ ⟨.viewSet "list", none, none⟩
        = Except.error
            "Must define a rbac_permissions dict on the ViewSet that is consuming the RBACPermission class"
      ∧ RBACPermission.has_permission ⟨"GET", .base 0, []⟩ ⟨.apiView, none, none⟩
          ≠ Except.ok true :=
  ⟨(has_permission_missing_table_c3 _ _ rfl).1,
   (has_permission_missing_table_c3 _ _ rfl).2 true⟩

/-- C4: with a declared `rbac_permissions` table, an action missing from the
table is treated as the empty requirement list (the gate permits regardless of
grants), and an action present in the table yields exactly
`has_permissions(request.user.permissions, entry)`. -/
theorem has_permission_declared_table_c4 :
    ∀ (request : Request) (view : View) table, view.rbac_permissions = some table →
      (table.lookup (_get_view_action request view) = none →
          RBACPermission.has_permission request view = Except.ok true) ∧
      (∀ required, table.lookup (_get_view_action request view) = some required →
          RBACPermission.has_permission request view
            = Except.ok (has_permissions request.user_permissions required)) := by
  intro request view table h
  constructor
  · intro hl
    simp [RBACPermission.has_permission, h, hl, has_permissions]
  · intro required hl
    simp [RBACPermission.has_permission, h, hl]

/-- Witness for C4: action absent from the table → allowed with no grants;
action present → the evaluator's verdict. -/
theorem has_permission_declared_table_c4_witness :
    RBACPermission.has_permission ⟨"GET", .base 0, []⟩
        ⟨.viewSet "list", some [("approve", [.SCHEDULES_READ])], none⟩ = Except.ok true
    ∧ RBACPermission.has_permission ⟨"GET", .base 0, []⟩
        ⟨.viewSet "approve", some [("approve", [.SCHEDULES_READ])], none⟩
          = Except.ok (has_permissions [] [.SCHEDULES_READ]) :=
  ⟨(has_permission_declared_table_c4 _ _ _ rfl).1 (by decide),
   (has_permission_declared_table_c4 _ _ _ rfl).2 _ (by decide)⟩

/-- C5: a handler with no `rbac_object_permissions` attribute gets `True` from
the object gate for every request and object. -/
theorem has_object_permission_no_table_c5 :
    ∀ (request : Request) (view : View) (obj : Obj),
      view.rbac_object_permissions = none →
      RBACPermission.has_object_permission request view obj = Except.ok true := by
  intro request view obj h
  simp [RBACPermission.has_object_permission, h]

/-- Witness for C5 at a concrete request, handler and object. -/
theorem has_object_permission_no_table_c5_witness :
    RBACPermission.has_object_permission ⟨"GET", .base 0, []⟩
      ⟨.viewSet "retrieve", some [("retrieve", [])], none⟩ (.base 7) = Except.ok true :=
  has_object_permission_no_table_c5 _ _ _ rfl

/-- The entry loop delivers the first matching entry's policy verdict: entries
before it do not contain the action, its own action list does. -/
theorem object_permission_loop_first_match
    (pre : List (PolicyClass × List String)) (pc : PolicyClass)
    (acts : List String) (post : List (PolicyClass × List String))
    (action : String) (request : Request) (obj : Obj) :
    (∀ e ∈ pre, e.2.contains action = false) → acts.contains action = true →
    RBACPermission.object_permission_loop (pre ++ (pc, acts) :: post) action request obj
      = pc.has_object_permission request obj := by
  induction pre with
  | nil =>
      intro _ ha
      simp only [List.nil_append, RBACPermission.object_permission_loop]
      rw [if_pos ha]
  | cons e rest ih =>
      intro hpre ha
      obtain ⟨p, as⟩ := e
      have he : as.contains action = false := hpre (p, as) (List.mem_cons_self _ _)
      simp only [List.cons_append, RBACPermission.object_permission_loop]
      rw [if_neg (by simpa using he)]
      exact ih (fun x hx => hpre x (List.mem_cons_of_mem _ hx)) ha

/-- The entry loop returns `False` when no entry's action list contains the
action. -/
theorem object_permission_loop_no_match
    (entries : List (PolicyClass × List String)) (action : String)
    (request : Request) (obj : Obj) :
    (∀ e ∈ entries, e.2.contains action = false) →
    RBACPermission.object_permission_loop entries action request obj
      = Except.ok false := by
  induction entries with
  | nil => intro _; rfl
  | cons e rest ih =>
      intro hall
      obtain ⟨p, as⟩ := e
      have he : as.contains action = false := hall (p, as) (List.mem_cons_self _ _)
      simp only [RBACPermission.object_permission_loop]
      rw [if_neg (by simpa using he)]
      exact ih (fun x hx => hall x (List.mem_cons_of_mem _ hx))

/-- With a declared, non-empty table the object gate runs the entry loop on
the resolved action. -/
theorem has_object_permission_nonempty_table
    (request : Request) (view : View) (obj : Obj)
    (entries : List (PolicyClass × List String)) :
    view.rbac_object_permissions = some entries → entries.isEmpty = false →
    RBACPermission.has_object_permission request view obj
      = RBACPermission.object_permission_loop entries
          (_get_view_action request view) request obj := by
  intro h hne
  simp [RBACPermission.has_object_permission, h, hne]

/-- C1 counterexample: a handler that declares an *empty* object-policy table.
The claim requires the object gate to return false there, but the code's
truthiness test (`if rbac_object_permissions:`) treats the empty dict exactly
like an absent one and returns `True`. -/
theorem has_object_permission_empty_table_counterexample_c1 :
    RBACPermission.has_object_permission ⟨"GET", .base 0, []⟩
        ⟨.viewSet "list", none, some []⟩ (.base 1) = Except.ok true
      ∧ (Except.ok true : Except String Bool) ≠ Except.ok false := by
  exact ⟨rfl, by simp⟩

/-- C1 (amended): when a handler declares a non-empty object-policy table, the
gate scans the entries in declaration order and returns the first matching
entry's policy verdict; it returns `False` when no entry names the resolved
action; a declared but empty table is treated like an absent one and yields
`True`. -/
theorem has_object_permission_declared_table_c1 :
    ∀ (request : Request) (view : View) (obj : Obj)
      (entries : List (PolicyClass × List String)),
      view.rbac_object_permissions = some entries →
      (entries = [] →
          RBACPermission.has_object_permission request view obj = Except.ok true) ∧
      (∀ pre pc acts post, entries = pre ++ (pc, acts) :: post →
          (∀ e ∈ pre, e.2.contains (_get_view_action request view) = false) →
          acts.contains (_get_view_action request view) = true →
          RBACPermission.has_object_permission request view obj
            = PolicyClass.has_object_permission pc request obj) ∧
      (entries ≠ [] →
          (∀ e ∈ entries, e.2.contains (_get_view_action request view) = false) →
          RBACPermission.has_object_permission request view obj = Except.ok false) := by
  intro request view obj entries h
  refine ⟨?_, ?_, ?_⟩
  · intro he
    subst he
    simp [RBACPermission.has_object_permission, h]
  · intro pre pc acts post hent hpre ha
    subst hent
    rw [has_object_permission_nonempty_table request view obj _ h (by simp)]
    exact object_permission_loop_first_match pre pc acts post _ request obj hpre ha
  · intro hne hall
    rw [has_object_permission_nonempty_table request view obj _ h
      (by simpa [List.isEmpty_iff] using hne)]
    exact object_permission_loop_no_match entries _ request obj hall

/-- Witness for C1 (amended): the second entry is the first match for action
`"update"` and decides; for action `"destroy"` no entry matches and the gate
denies. -/
theorem has_object_permission_declared_table_c1_witness :
    RBACPermission.has_object_permission ⟨"GET", .base 5, []⟩
        ⟨.viewSet "update",
          none,
          some [(.isOwner none, ["retrieve"]), (.hasRBAC [.SCHEDULES_READ], ["update"])]⟩
        (.base 7)
      = PolicyClass.has_object_permission (.hasRBAC [.SCHEDULES_READ]) ⟨"GET", .base 5, []⟩ (.base 7)
    ∧ RBACPermission.has_object_permission ⟨"GET", .base 5, []⟩
        ⟨.viewSet "destroy",
          none,
          some [(.isOwner none, ["retrieve"]), (.hasRBAC [.SCHEDULES_READ], ["update"])]⟩
        (.base 7)
      = Except.ok false :=
  ⟨(has_object_permission_declared_table_c1 _ _ _ _ rfl).2.1
      [(.isOwner none, ["retrieve"])] (.hasRBAC [.SCHEDULES_READ]) ["update"] [] rfl
      (by decide) (by decide),
   (has_object_permission_declared_table_c1 _ _ _ _ rfl).2.2
      (by decide) (by decide)⟩

/-- C6: the ownership policy grants exactly when the object itself (no path)
or the value reached by the configured dotted path (path declared and
resolving) is the requesting principal. -/
theorem isOwner_check_c6 :
    (∀ (request : Request) (obj : Obj),
        (IsOwner.mk none).has_object_permission request obj = Except.ok true
          ↔ obj = request.user) ∧
    (∀ (request : Request) (obj : Obj) (path : String) (owner : Obj),
        getattrd obj path = Except.ok owner →
        ((IsOwner.mk (some path)).has_object_permission request obj = Except.ok true
          ↔ owner = request.user)) := by
  constructor
  · intro request obj
    simp [IsOwner.has_object_permission]
  · intro request obj path owner h
    simp only [IsOwner.has_object_permission, h]
    show Except.ok (decide (owner = request.user)) = Except.ok true ↔ owner = request.user
    simp

/-- Witness for C6: the principal itself with no path, and a two-level
`"schedule.user"` path resolving to the principal. -/
theorem isOwner_check_c6_witness :
    (IsOwner.mk none).has_object_permission ⟨"GET", .base 1, []⟩ (.base 1) = Except.ok true
    ∧ (IsOwner.mk (some "schedule.user")).has_object_permission ⟨"GET", .base 1, []⟩
        (.rcons "schedule" (.rcons "user" (.base 1) .rnil) .rnil) = Except.ok true :=
  ⟨(isOwner_check_c6.1 _ _).mpr rfl,
   (isOwner_check_c6.2 ⟨"GET", .base 1, []⟩
      (.rcons "schedule" (.rcons "user" (.base 1) .rnil) .rnil)
      "schedule.user" (.base 1) rfl).mpr rfl⟩

/-- C7: when the configured dotted path does not resolve against the object,
the ownership policy propagates the attribute-resolution error and never
returns a boolean verdict. -/
theorem isOwner_unresolved_path_c7 :
    ∀ (request : Request) (obj : Obj) (path e : String),
      getattrd obj path = Except.error e →
      (IsOwner.mk (some path)).has_object_permission request obj = Except.error e
        ∧ ∀ b : Bool,
            (IsOwner.mk (some path)).has_object_permission request obj ≠ Except.ok b := by
  intro request obj path e h
  have hmain : (IsOwner.mk (some path)).has_object_permission request obj
      = Except.error e := by
    simp [IsOwner.has_object_permission, h, Except.bind]
  refine ⟨hmain, fun b hb => ?_⟩
  rw [hmain] at hb
  cases hb

/-- Witness for C7: an atom has no `user` attribute, so the path `"user"`
fails, and the policy surfaces the error. -/
theorem isOwner_unresolved_path_c7_witness :
    (IsOwner.mk (some "user")).has_object_permission ⟨"GET", .base 1, []⟩ (.base 0)
        = Except.error "user"
      ∧ (IsOwner.mk (some "user")).has_object_permission ⟨"GET", .base 1, []⟩ (.base 0)
          ≠ Except.ok false :=
  ⟨(isOwner_unresolved_path_c7 ⟨"GET", .base 1, []⟩ (.base 0) "user" "user" rfl).1,
   (isOwner_unresolved_path_c7 ⟨"GET", .base 1, []⟩ (.base 0) "user" "user" rfl).2 false⟩

/-- C8: the OR-composition returns the disjunction of its two sub-policies
(whenever the ownership side returns a verdict rather than an error), and its
RBAC side ignores the object, being exactly the evaluator on the principal's
grants. -/
theorem isOwnerOrHasRBAC_or_c8 :
    ∀ (request : Request) (obj : Obj)
      (required : List RBACPermission.Permissions) (field : Option String) (b : Bool),
      (IsOwner.mk field).has_object_permission request obj = Except.ok b →
      (IsOwnerOrHasRBACPermissions.mk required field).has_object_permission request obj
          = Except.ok
              (b || (HasRBACPermissions.mk required).has_object_permission request obj)
        ∧ (HasRBACPermissions.mk required).has_object_permission request obj
            = has_permissions request.user_permissions required := by
  intro request obj required field b h
  refine ⟨?_, rfl⟩
  have hstep :
      (IsOwnerOrHasRBACPermissions.mk required field).has_object_permission request obj
        = if b then Except.ok true
          else Except.ok (has_permissions request.user_permissions required) := by
    simp only [IsOwnerOrHasRBACPermissions.has_object_permission, h]
    rfl
  rw [hstep]
  cases b <;> simp [HasRBACPermissions.has_object_permission]

/-- Witness for C8: a non-owner whose blanket `schedules:read` grant makes the
composition allow. -/
theorem isOwnerOrHasRBAC_or_c8_witness :
    (IsOwnerOrHasRBACPermissions.mk [.SCHEDULES_READ] none).has_object_permission
        ⟨"GET", .base 2, [⟨"grafana-oncall-app.schedules:read"⟩]⟩ (.base 1)
      = Except.ok
          (false
            || (HasRBACPermissions.mk [.SCHEDULES_READ]).has_object_permission
                  ⟨"GET", .base 2, [⟨"grafana-oncall-app.schedules:read"⟩]⟩ (.base 1))
    ∧ (HasRBACPermissions.mk [.SCHEDULES_READ]).has_object_permission
          ⟨"GET", .base 2, [⟨"grafana-oncall-app.schedules:read"⟩]⟩ (.base 1)
        = has_permissions [⟨"grafana-oncall-app.schedules:read"⟩] [.SCHEDULES_READ] :=
  isOwnerOrHasRBAC_or_c8 _ _ [.SCHEDULES_READ] none false rfl

/-- C9: dropping the prefix yields exactly the prefixed identifier with
`"grafana-oncall-app."` stripped (the prefixed form is that constant followed
by the unprefixed form), and in either mode the identifier determines the
`(resource, action)` pair. -/
theorem generate_permission_string_c9 :
    (∀ (resource : Resources) (action : Actions),
        _generate_permission_string resource action false
          = ACTION_PREFIX ++ "." ++ _generate_permission_string resource action true) ∧
    (∀ (r r' : Resources) (a a' : Actions) (b : Bool),
        _generate_permission_string r a b = _generate_permission_string r' a' b →
        r = r' ∧ a = a') := by
  constructor
  · decide
  · decide

/-- Witness for C9: injectivity applied at a concrete equal pair, and the
prefix-stripping identity at a concrete pair. -/
theorem generate_permission_string_c9_witness :
    (Resources.SCHEDULES = Resources.SCHEDULES ∧ Actions.READ = Actions.READ)
    ∧ _generate_permission_string .SCHEDULES .READ false
        = ACTION_PREFIX ++ "." ++ _generate_permission_string .SCHEDULES .READ true :=
  ⟨generate_permission_string_c9.2 .SCHEDULES .SCHEDULES .READ .READ false rfl,
   generate_permission_string_c9.1 .SCHEDULES .READ⟩

end Oncall
